import Mathlib

/-!
# Verification of the manta-signer password handshake core

A shallow embedding of the three source files of the repository:

* `src/secret.rs` — the secure password container (`Password`, built on
  `subtle::CtOption` and `secrecy::Secret`) and the `Authorizer` trait.
* `src/config.rs` — the configuration record and the `Config::setup`
  resolver that decides between `Login` and `CreateAccount`.
* `ui/src-tauri/src/main.rs` — the handshake coordinator: `User`
  (consumer side: `request_password`, `validate_password`, `sleep`) and
  `PasswordStore` (producer side: `load`, `load_exact`, `clear`).

Rust effects are made explicit: fallible filesystem calls are modelled by
an abstract filesystem record of `Except`-valued operations, channel
interactions by an environment record giving the outcome of each blocking
call together with an emitted event trace, and `panic!`/`expect` by an
`Except RustPanic` result.
-/

/-- A Rust panic (`expect` / `unwrap` failure), carrying the panic message. -/
structure RustPanic where
  msg : String
deriving DecidableEq, Repr

/-! ## Secure password container (`src/secret.rs`) -/

/-- `subtle::Choice`: a constant-time boolean, built from `0u8` or `1u8`
via `From<u8>`.  The timing behaviour is not modelled, only the value. -/
structure Choice where
  isTrue : Bool
deriving DecidableEq, Repr

/-- `Choice::from(n)` for `n : u8` (in the source only `0.into()` and
`1.into()` occur); the choice is set when the byte is nonzero. -/
def Choice.ofNat (n : Nat) : Choice :=
  ⟨decide (n ≠ 0)⟩

/-- `subtle::CtOption<T>`: a value together with a `Choice` flag telling
whether the value is present. -/
structure CtOption (α : Type) where
  value : α
  is_some : Choice
deriving DecidableEq, Repr

/-- `CtOption::new(value, is_some)`. -/
def CtOption.new {α : Type} (value : α) (is_some : Choice) : CtOption α :=
  ⟨value, is_some⟩

/-- The `Into<Option<T>>` conversion of a `CtOption<T>`: `Some(value)`
when the presence flag is set, `None` otherwise. -/
def CtOption.intoOption {α : Type} (c : CtOption α) : Option α :=
  if c.is_some.isTrue then some c.value else none

/-- `secrecy::Secret<Vec<u8>>`, the secret byte buffer: modelled by its
byte contents. -/
abbrev SecretBytes : Type := List Nat

/-- `Vec::with_capacity(64)`: an empty byte buffer (the reserved capacity
is not observable in the contents). -/
def emptyBufferCapacity64 : SecretBytes := ([] : List Nat)

/-- `Password`, the password secret wrapper: a `CtOption` around the
secret bytes. -/
structure Password where
  inner : CtOption SecretBytes
deriving DecidableEq, Repr

/-- `Password::new(password, is_known)`. -/
def Password.new (password : SecretBytes) (is_known : Choice) : Password :=
  ⟨CtOption.new password is_known⟩

/-- `Password::from_known(password)`: presence flag `1.into()`. -/
def Password.from_known (password : SecretBytes) : Password :=
  Password.new password (Choice.ofNat 1)

/-- `Password::from_unknown()`: a fresh buffer of capacity 64 with
presence flag `0.into()`. -/
def Password.from_unknown : Password :=
  Password.new emptyBufferCapacity64 (Choice.ofNat 0)

/-- `Password::known(self)`: the `Into<Option<_>>` view of the inner
`CtOption`, consuming the container. -/
def Password.known (p : Password) : Option SecretBytes :=
  p.inner.intoOption

/-- `Password::is_known(&self)`: the boolean view of `CtOption::is_some`. -/
def Password.is_known (p : Password) : Bool :=
  p.inner.is_some.isTrue

/-- `Default for Password` is `from_unknown`. -/
def Password.default : Password := Password.from_unknown

/-! ## Paths and the setup resolver (`src/config.rs`) -/

/-- A filesystem path, modelled as an absolute/relative marker plus the
list of components.  `Path::parent` of a component-less path (`""` or
`"/"`) is `None`; otherwise it drops the last component. -/
structure FsPath where
  absolute : Bool
  components : List String
deriving DecidableEq, Repr

/-- `Path::parent`. -/
def FsPath.parent (p : FsPath) : Option FsPath :=
  match p.components with
  | [] => none
  | _ => some ⟨p.absolute, p.components.dropLast⟩

/-- The kind of an `io::Error` (only the kinds the source distinguishes). -/
inductive IoErrorKind : Type
  | notFound
  | permissionDenied
  | other
deriving DecidableEq, Repr

/-- An `io::Error`: a kind plus a message. -/
structure IoError where
  kind : IoErrorKind
  msg : String
deriving DecidableEq, Repr

/-- `std::fs::Metadata` as used by the source: the `is_file` predicate
plus its `Debug` rendering (used in the error message). -/
structure Metadata where
  is_file : Bool
  debugRepr : String
deriving DecidableEq, Repr

/-- An abstract filesystem: the outcomes of the two calls `Config::setup`
makes.  `create_dir_all` is recursive and idempotent on the real
filesystem; here only its success or failure is observable. -/
structure FS where
  create_dir_all : FsPath → Except IoError Unit
  metadata : FsPath → Except IoError Metadata

/-- A trace entry: one filesystem call performed by `Config::setup`. -/
inductive FsOp : Type
  | create_dir_all (p : FsPath)
  | metadata (p : FsPath)
deriving DecidableEq, Repr

/-- A mnemonic, kept abstract: `Mnemonic::gen(&mut OsRng)` is delegated
to an external generator, so `setup` is parameterised by the value the
generator would produce. -/
structure Mnemonic where
  phrase : String
deriving DecidableEq, Repr

/-- The `Setup` phase returned by the resolver. -/
inductive Setup : Type
  | CreateAccount (m : Mnemonic)
  | Login
deriving DecidableEq, Repr

/-- The `Config` record (`data_path`, `service_url`, `origin_url`). -/
structure Config where
  data_path : FsPath
  service_url : String
  origin_url : Option String
deriving DecidableEq, Repr

/-- `Config::data_directory`: `data_path.parent()` followed by
`.expect("The data path file must always have a parent.")`. -/
def Config.data_directory (c : Config) : Except RustPanic FsPath :=
  match c.data_path.parent with
  | some p => Except.ok p
  | none => Except.error ⟨"The data path file must always have a parent."⟩

/-- `Config::setup`: create the data directory, then match on the
metadata of `data_path`.  The result carries the trace of filesystem
calls performed alongside the `io::Result<Setup>` value; a `RustPanic`
result is the `data_directory` panic.  The `_` arm of the source's match
covers every `Err` from `fs::metadata`, whatever its kind. -/
def Config.setup (c : Config) (fs : FS) (gen : Mnemonic) :
    Except RustPanic (List FsOp × Except IoError Setup) :=
  match Config.data_directory c with
  | Except.error e => Except.error e
  | Except.ok dir =>
    match fs.create_dir_all dir with
    | Except.error e => Except.ok ([FsOp.create_dir_all dir], Except.error e)
    | Except.ok _ =>
      let trace := [FsOp.create_dir_all dir, FsOp.metadata c.data_path]
      match fs.metadata c.data_path with
      | Except.ok md =>
        if md.is_file then
          Except.ok (trace, Except.ok Setup.Login)
        else
          Except.ok (trace, Except.error
            ⟨IoErrorKind.other, "Invalid file format: " ++ md.debugRepr ++ "."⟩)
      | Except.error _ => Except.ok (trace, Except.ok (Setup.CreateAccount gen))

/-! ## Handshake coordinator (`ui/src-tauri/src/main.rs`)

The consumer side (`User`) holds the `waiting` flag, a password receiver
and a retry sender; the producer side (`PasswordStore`) holds the shared
`Option` slot with the opposite channel ends.  Each blocking channel call
is modelled by its outcome, supplied through an environment record, and
each send is recorded in an event trace. -/

/-- The mutable state of `User` that the handshake logic touches: the
`waiting` flag. -/
structure UserState where
  waiting : Bool
deriving DecidableEq, Repr

/-- A channel event emitted by the consumer side. -/
inductive ChanEvent : Type
  | sendRetry (verdict : Bool)
  | recvPassword (p : Password)
deriving DecidableEq, Repr

/-- The environment of one consumer-side call: whether `retry.send`
succeeds (its receiver is alive) and what `password.recv()` yields
(`none` means the channel is closed: all senders dropped). -/
structure ChanEnv where
  sendRetryOk : Bool
  recvPassword : Option Password
deriving DecidableEq, Repr

/-- `User::should_retry(retry)`: send the verdict on the retry channel,
panicking (`expect`) when the send fails. -/
def User.should_retry (env : ChanEnv) (retry : Bool) :
    Except RustPanic (List ChanEvent) :=
  if env.sendRetryOk then Except.ok [ChanEvent.sendRetry retry]
  else Except.error ⟨"Failed to send retry message."⟩

/-- `User::request_password`: if `waiting`, first send `true` on the
retry channel; then receive the next password (panicking via `expect`
when the channel is closed), set `waiting` to the received password's
`is_known()`, and return it. -/
def User.request_password (s : UserState) (env : ChanEnv) :
    Except RustPanic (Password × UserState × List ChanEvent) :=
  match (if s.waiting then User.should_retry env true else Except.ok []) with
  | Except.error e => Except.error e
  | Except.ok evs =>
    match env.recvPassword with
    | none => Except.error ⟨"Failed to receive retry message."⟩
    | some p =>
      Except.ok (p, ⟨p.is_known⟩, evs ++ [ChanEvent.recvPassword p])

/-- `User::validate_password`: set `waiting := false`, then send `false`
on the retry channel. -/
def User.validate_password (s : UserState) (env : ChanEnv) :
    Except RustPanic (UserState × List ChanEvent) :=
  let s' : UserState := { s with waiting := false }
  match User.should_retry env false with
  | Except.error e => Except.error e
  | Except.ok evs => Except.ok (s', evs)

/-- `Authorizer::sleep` for `User`: the verdict message is discarded
(`let _ = message`) and `validate_password` runs.  For `User` the
associated types are `Message = ()` and `Error = ()`. -/
def User.sleep (s : UserState) (message : Except Unit Unit) (env : ChanEnv) :
    Except RustPanic (UserState × List ChanEvent) :=
  let _ := message
  User.validate_password s env

/-- A producer-side channel event. -/
inductive StoreEvent : Type
  | sendPassword (p : Password)
deriving DecidableEq, Repr

/-- The environment of one producer-side call: what `retry.recv()` yields
(`none` means the channel is closed, making `unwrap` panic). -/
structure StoreEnv where
  recvRetry : Option Bool
deriving DecidableEq, Repr

/-- The shared password-store slot: `None` before a front-end attaches
(disarmed), `Some` once armed.  Only the presence of the channel pair is
relevant here; the channel outcomes live in `StoreEnv`. -/
def StoreSlot : Type := Option Unit

/-- `PasswordStore::load`: when the slot is armed, send
`Password::from_known(password)` (the send result is discarded), then
`retry.recv().unwrap()`; when the slot is empty, return `false` at once
with no channel activity. -/
def PasswordStore.load (slot : StoreSlot) (password : SecretBytes)
    (env : StoreEnv) : Except RustPanic (Bool × List StoreEvent) :=
  match slot with
  | none => Except.ok (false, [])
  | some _ =>
    match env.recvRetry with
    | none => Except.error ⟨"called Option::unwrap on a None value"⟩
    | some b =>
      Except.ok (b, [StoreEvent.sendPassword (Password.from_known password)])

/-- `PasswordStore::load_exact`: send the known password without awaiting
a verdict; a no-op on a disarmed slot. -/
def PasswordStore.load_exact (slot : StoreSlot) (password : SecretBytes) :
    List StoreEvent :=
  match slot with
  | none => []
  | some _ => [StoreEvent.sendPassword (Password.from_known password)]

/-- `PasswordStore::clear`: send `Password::from_unknown()` without
awaiting a verdict; a no-op on a disarmed slot. -/
def PasswordStore.clear (slot : StoreSlot) : List StoreEvent :=
  match slot with
  | none => []
  | some _ => [StoreEvent.sendPassword Password.from_unknown]

/-! ## Concrete sample inputs -/

/-- A sample mnemonic standing for the external generator's output. -/
def sampleMnemonic : Mnemonic := ⟨"abandon ability able about above absent"⟩

/-- A sample data-directory path. -/
def sampleDir : FsPath := ⟨true, ["home", "user", ".config", "manta-signer"]⟩

/-- A sample data-file path whose parent is `sampleDir`. -/
def samplePath : FsPath :=
  ⟨true, ["home", "user", ".config", "manta-signer", "storage.dat"]⟩

/-- The default origin URL. -/
def sampleOriginUrl : String := "https://app.dolphin.manta.network"

/-- A sample configuration around `samplePath`. -/
def sampleConfig : Config :=
  ⟨samplePath, "127.0.0.1:29987", some sampleOriginUrl⟩

/-- A configuration whose data path has no parent (a root path). -/
def rootConfig : Config := ⟨⟨true, []⟩, "127.0.0.1:29987", none⟩

/-- A filesystem where the data path is an existing regular file. -/
def fsRegularFile : FS :=
  { create_dir_all := fun _ => Except.ok ()
    metadata := fun _ => Except.ok ⟨true, "Metadata(file)"⟩ }

/-- A filesystem where the data path does not exist. -/
def fsMissing : FS :=
  { create_dir_all := fun _ => Except.ok ()
    metadata := fun _ =>
      Except.error ⟨IoErrorKind.notFound, "No such file or directory"⟩ }

/-- A filesystem where stat-ing the data path is denied. -/
def fsDenied : FS :=
  { create_dir_all := fun _ => Except.ok ()
    metadata := fun _ =>
      Except.error ⟨IoErrorKind.permissionDenied, "Permission denied"⟩ }

/-- A filesystem where the data path is an existing directory. -/
def fsDirAt : FS :=
  { create_dir_all := fun _ => Except.ok ()
    metadata := fun _ => Except.ok ⟨false, "Metadata(dir)"⟩ }

/-- Unfolding of `Config.setup` once the data directory is known. -/
lemma setup_eq_of_parent (c : Config) (dir : FsPath) (fs : FS) (gen : Mnemonic)
    (hdir : c.data_path.parent = some dir) :
    Config.setup c fs gen =
      match fs.create_dir_all dir with
      | Except.error e => Except.ok ([FsOp.create_dir_all dir], Except.error e)
      | Except.ok _ =>
        match fs.metadata c.data_path with
        | Except.ok md =>
          if md.is_file then
            Except.ok ([FsOp.create_dir_all dir, FsOp.metadata c.data_path],
              Except.ok Setup.Login)
          else
            Except.ok ([FsOp.create_dir_all dir, FsOp.metadata c.data_path],
              Except.error ⟨IoErrorKind.other,
                "Invalid file format: " ++ md.debugRepr ++ "."⟩)
        | Except.error _ =>
          Except.ok ([FsOp.create_dir_all dir, FsOp.metadata c.data_path],
            Except.ok (Setup.CreateAccount gen)) := by
  unfold Config.setup Config.data_directory
  rw [hdir]

/-! ## Claim theorems -/

/-- C1, counterexample: with the data path stat-able only with a
permission-denied error (a failure other than non-existence) and
directory creation succeeding, `Config::setup` returns the `Setup` value
`CreateAccount` instead of failing with an I/O error, contradicting the
claim that such failures are propagated to the caller. -/
theorem C1_counterexample :
    fsDenied.metadata sampleConfig.data_path =
      Except.error ⟨IoErrorKind.permissionDenied, "Permission denied"⟩ ∧
    Config.setup sampleConfig fsDenied sampleMnemonic =
      Except.ok ([FsOp.create_dir_all sampleDir, FsOp.metadata samplePath],
        Except.ok (Setup.CreateAccount sampleMnemonic)) :=
  ⟨rfl, rfl⟩

/-- C1, amended: whenever the metadata query fails — for any reason,
non-existence or otherwise (e.g. permission denied) — and directory
creation succeeded, `Config::setup` returns `Ok(CreateAccount)` with the
freshly generated mnemonic rather than propagating the metadata error. -/
theorem C1_metadata_error_create_account (c : Config) (dir : FsPath)
    (fs : FS) (gen : Mnemonic) (e : IoError)
    (hdir : c.data_path.parent = some dir)
    (hcd : fs.create_dir_all dir = Except.ok ())
    (hmd : fs.metadata c.data_path = Except.error e) :
    Config.setup c fs gen =
      Except.ok ([FsOp.create_dir_all dir, FsOp.metadata c.data_path],
        Except.ok (Setup.CreateAccount gen)) := by
  rw [setup_eq_of_parent c dir fs gen hdir, hcd, hmd]

/-- C1, witness: the amended theorem applied at a concrete configuration
and a permission-denied filesystem. -/
theorem C1_witness :
    Config.setup sampleConfig fsDenied sampleMnemonic =
      Except.ok ([FsOp.create_dir_all sampleDir, FsOp.metadata samplePath],
        Except.ok (Setup.CreateAccount sampleMnemonic)) :=
  C1_metadata_error_create_account sampleConfig sampleDir fsDenied
    sampleMnemonic ⟨IoErrorKind.permissionDenied, "Permission denied"⟩
    rfl rfl rfl

/-- C2, counterexample: when the data path is an existing regular file
(the `Login` case), `Config::setup` still performs a `create_dir_all`
call — and performs it before the metadata query — contradicting the
claim that metadata is queried first and that no directory creation
happens in the `Login` case. -/
theorem C2_counterexample :
    Config.setup sampleConfig fsRegularFile sampleMnemonic =
      Except.ok ([FsOp.create_dir_all sampleDir, FsOp.metadata samplePath],
        Except.ok Setup.Login) :=
  rfl

/-- C2, amended: `Config::setup` unconditionally creates the containing
directory first: whenever it returns without panicking, the first
filesystem operation of its trace is `create_dir_all` on the data
directory, in every branch — including the `Login` branch.  (The call is
recursive and idempotent, so an existing directory is left as is.) -/
theorem C2_create_dir_all_first (c : Config) (dir : FsPath) (fs : FS)
    (gen : Mnemonic) (t : List FsOp) (r : Except IoError Setup)
    (hdir : c.data_path.parent = some dir)
    (hok : Config.setup c fs gen = Except.ok (t, r)) :
    t.head? = some (FsOp.create_dir_all dir) := by
  rw [setup_eq_of_parent c dir fs gen hdir] at hok
  cases hcd : fs.create_dir_all dir with
  | error e =>
    rw [hcd] at hok
    cases hok
    rfl
  | ok u =>
    rw [hcd] at hok
    cases hmd : fs.metadata c.data_path with
    | ok md =>
      rw [hmd] at hok
      by_cases hf : md.is_file = true
      · simp [hf] at hok
        rw [← hok.1]
        rfl
      · simp [hf] at hok
        rw [← hok.1]
        rfl
    | error e =>
      rw [hmd] at hok
      cases hok
      rfl

/-- C2, witness: the amended theorem applied at a concrete configuration
whose data path is an existing regular file. -/
theorem C2_witness :
    [FsOp.create_dir_all sampleDir, FsOp.metadata samplePath].head? =
      some (FsOp.create_dir_all sampleDir) :=
  C2_create_dir_all_first sampleConfig sampleDir fsRegularFile
    sampleMnemonic
    [FsOp.create_dir_all sampleDir, FsOp.metadata samplePath]
    (Except.ok Setup.Login) rfl rfl

/-- C6: once the data directory is created successfully, `Config::setup`
returns `Login` when the metadata query finds a regular file at the data
path, and returns `CreateAccount` with the freshly generated mnemonic
when the metadata query reports non-existence; in the latter case the
trace shows the `create_dir_all` call on the parent directory was
performed before returning. -/
theorem C6_setup_login_or_create (c : Config) (dir : FsPath) (fs : FS)
    (gen : Mnemonic)
    (hdir : c.data_path.parent = some dir)
    (hcd : fs.create_dir_all dir = Except.ok ()) :
    (∀ md : Metadata, fs.metadata c.data_path = Except.ok md →
      md.is_file = true →
      Config.setup c fs gen =
        Except.ok ([FsOp.create_dir_all dir, FsOp.metadata c.data_path],
          Except.ok Setup.Login)) ∧
    (∀ e : IoError, fs.metadata c.data_path = Except.error e →
      e.kind = IoErrorKind.notFound →
      Config.setup c fs gen =
        Except.ok ([FsOp.create_dir_all dir, FsOp.metadata c.data_path],
          Except.ok (Setup.CreateAccount gen))) := by
  constructor
  · intro md hmd hf
    rw [setup_eq_of_parent c dir fs gen hdir, hcd, hmd]
    simp [hf]
  · intro e hmd _
    rw [setup_eq_of_parent c dir fs gen hdir, hcd, hmd]

/-- C6, witness: the theorem applied at a concrete configuration, once
with the data path an existing regular file and once with it missing. -/
theorem C6_witness :
    Config.setup sampleConfig fsRegularFile sampleMnemonic =
      Except.ok ([FsOp.create_dir_all sampleDir, FsOp.metadata samplePath],
        Except.ok Setup.Login) ∧
    Config.setup sampleConfig fsMissing sampleMnemonic =
      Except.ok ([FsOp.create_dir_all sampleDir, FsOp.metadata samplePath],
        Except.ok (Setup.CreateAccount sampleMnemonic)) :=
  ⟨(C6_setup_login_or_create sampleConfig sampleDir fsRegularFile
      sampleMnemonic rfl rfl).1 ⟨true, "Metadata(file)"⟩ rfl rfl,
   (C6_setup_login_or_create sampleConfig sampleDir fsMissing
      sampleMnemonic rfl rfl).2
      ⟨IoErrorKind.notFound, "No such file or directory"⟩ rfl rfl⟩

/-- C7: when the metadata query succeeds but the data path is not a
regular file, `Config::setup` fails with the invalid-file-format error of
kind `Other`; in particular it does not return `Login` or
`CreateAccount`. -/
theorem C7_invalid_format_error (c : Config) (dir : FsPath) (fs : FS)
    (gen : Mnemonic) (md : Metadata)
    (hdir : c.data_path.parent = some dir)
    (hcd : fs.create_dir_all dir = Except.ok ())
    (hmd : fs.metadata c.data_path = Except.ok md)
    (hf : md.is_file = false) :
    Config.setup c fs gen =
      Except.ok ([FsOp.create_dir_all dir, FsOp.metadata c.data_path],
        Except.error ⟨IoErrorKind.other,
          "Invalid file format: " ++ md.debugRepr ++ "."⟩) := by
  rw [setup_eq_of_parent c dir fs gen hdir, hcd, hmd]
  simp [hf]

/-- C7, witness: the theorem applied at a concrete configuration whose
data path is an existing directory. -/
theorem C7_witness :
    Config.setup sampleConfig fsDirAt sampleMnemonic =
      Except.ok ([FsOp.create_dir_all sampleDir, FsOp.metadata samplePath],
        Except.error ⟨IoErrorKind.other,
          "Invalid file format: Metadata(dir)."⟩) :=
  C7_invalid_format_error sampleConfig sampleDir fsDirAt sampleMnemonic
    ⟨false, "Metadata(dir)"⟩ rfl rfl rfl rfl

/-- C10: `Config::data_directory` panics exactly when `data_path` has no
parent — when the parent exists it totally returns it — and
`Config::setup` inherits that precondition, panicking before any
filesystem access (for every filesystem and mnemonic, with an empty
operation trace) when the parent is missing. -/
theorem C10_data_directory_parent (c : Config) :
    (c.data_path.parent = none →
      Config.data_directory c =
        Except.error ⟨"The data path file must always have a parent."⟩ ∧
      ∀ (fs : FS) (gen : Mnemonic),
        Config.setup c fs gen =
          Except.error ⟨"The data path file must always have a parent."⟩) ∧
    (∀ p : FsPath, c.data_path.parent = some p →
      Config.data_directory c = Except.ok p) := by
  constructor
  · intro hnone
    have hdd : Config.data_directory c =
        Except.error ⟨"The data path file must always have a parent."⟩ := by
      unfold Config.data_directory
      rw [hnone]
    refine ⟨hdd, fun fs gen => ?_⟩
    unfold Config.setup
    rw [hdd]
  · intro p hp
    unfold Config.data_directory
    rw [hp]

/-- C10, witness: the theorem applied at a root-path configuration (panic
in `data_directory` and in `setup`, before any filesystem call) and at a
configuration with a proper parent (total return of the parent). -/
theorem C10_witness :
    Config.data_directory rootConfig =
      Except.error ⟨"The data path file must always have a parent."⟩ ∧
    Config.setup rootConfig fsRegularFile sampleMnemonic =
      Except.error ⟨"The data path file must always have a parent."⟩ ∧
    Config.data_directory sampleConfig = Except.ok sampleDir :=
  ⟨((C10_data_directory_parent rootConfig).1 rfl).1,
   ((C10_data_directory_parent rootConfig).1 rfl).2 fsRegularFile
     sampleMnemonic,
   (C10_data_directory_parent sampleConfig).2 sampleDir rfl⟩

/-- C3, counterexample: a `password()` call (`User::request_password`)
whose password channel is closed — the front-end detached while the call
was blocked — ends in a Rust panic (the `expect` on `recv`), not in a
`CommunicationClosed` error condition, contradicting the claim that it
fails with `CommunicationClosed` rather than panicking. -/
theorem C3_counterexample :
    User.request_password ⟨false⟩ ⟨true, none⟩ =
      Except.error ⟨"Failed to receive retry message."⟩ :=
  rfl

/-- C3, amended: after the coordinator is detached (the shared slot is
empty), every `PasswordStore::load` call returns `false` immediately,
with no channel activity and no panic; a `password()` call whose
password channel is closed never returns a password — it panics via
`expect` instead of failing with a `CommunicationClosed` condition. -/
theorem C3_detached_load_false_password_panics (pw : SecretBytes)
    (env : StoreEnv) (s : UserState) (cenv : ChanEnv)
    (hclosed : cenv.recvPassword = none) :
    PasswordStore.load none pw env = Except.ok (false, []) ∧
    (User.request_password s cenv).toOption = none := by
  refine ⟨rfl, ?_⟩
  unfold User.request_password
  cases hw : s.waiting <;> simp [hw, hclosed, User.should_retry] <;>
    by_cases hs : cenv.sendRetryOk = true <;> simp [hs, Except.toOption]

/-- C3, witness: the amended theorem applied at a concrete password,
store environment, user state, and a closed password channel. -/
theorem C3_witness :
    PasswordStore.load none [112, 119] ⟨some true⟩ = Except.ok (false, []) ∧
    (User.request_password ⟨false⟩ ⟨true, none⟩).toOption = none :=
  C3_detached_load_false_password_panics [112, 119] ⟨some true⟩ ⟨false⟩
    ⟨true, none⟩ rfl

/-- C4: `User::request_password` sends the verdict `true` on the retry
channel exactly when `waiting` is true (and before the receive), then
returns the password received from the password channel with the new
`waiting` flag equal to that password's `is_known()`; in particular no
`true` verdict is sent when `waiting` was false. -/
theorem C4_request_password_contract (s : UserState) (env : ChanEnv)
    (p : Password)
    (hsend : s.waiting = true → env.sendRetryOk = true)
    (hrecv : env.recvPassword = some p) :
    User.request_password s env =
      Except.ok (p, ⟨p.is_known⟩,
        (if s.waiting then [ChanEvent.sendRetry true] else []) ++
          [ChanEvent.recvPassword p]) := by
  unfold User.request_password
  cases hw : s.waiting with
  | false => simp [hrecv]
  | true => simp [User.should_retry, hsend hw, hrecv]

/-- C4, witness: the theorem applied with `waiting = true`, a live retry
channel, and a concrete known password in the password channel. -/
theorem C4_witness :
    User.request_password ⟨true⟩ ⟨true, some (Password.from_known [97])⟩ =
      Except.ok (Password.from_known [97],
        ⟨(Password.from_known [97]).is_known⟩,
        (if true then [ChanEvent.sendRetry true] else []) ++
          [ChanEvent.recvPassword (Password.from_known [97])]) :=
  C4_request_password_contract ⟨true⟩
    ⟨true, some (Password.from_known [97])⟩ (Password.from_known [97])
    (fun _ => rfl) rfl

/-- C5: `User::sleep` discards its verdict message, so any two verdicts
(success or failure) produce identical behaviour and state; when the
retry channel is live, the result is always the state with
`waiting = false` after sending the verdict `false` on the retry
channel. -/
theorem C5_sleep_verdict_insensitive (s : UserState) (env : ChanEnv)
    (m₁ m₂ : Except Unit Unit) :
    User.sleep s m₁ env = User.sleep s m₂ env ∧
    (env.sendRetryOk = true →
      User.sleep s m₁ env =
        Except.ok (⟨false⟩, [ChanEvent.sendRetry false])) := by
  refine ⟨rfl, fun hs => ?_⟩
  unfold User.sleep User.validate_password User.should_retry
  simp [hs]

/-- C5, witness: the theorem applied at a concrete state, a live retry
channel, and the two concrete verdicts `Ok(())` and `Err(())`. -/
theorem C5_witness :
    User.sleep ⟨true⟩ (Except.ok ()) ⟨true, none⟩ =
      User.sleep ⟨true⟩ (Except.error ()) ⟨true, none⟩ ∧
    User.sleep ⟨true⟩ (Except.ok ()) ⟨true, none⟩ =
      Except.ok (⟨false⟩, [ChanEvent.sendRetry false]) :=
  ⟨(C5_sleep_verdict_insensitive ⟨true⟩ ⟨true, none⟩ (Except.ok ())
      (Except.error ())).1,
   (C5_sleep_verdict_insensitive ⟨true⟩ ⟨true, none⟩ (Except.ok ())
      (Except.error ())).2 rfl⟩

/-- C8: for every byte sequence `b`, `Password::from_known(b)` satisfies
`is_known() = true`, and `Password::from_unknown()` satisfies
`is_known() = false`. -/
theorem C8_presence_flags (b : SecretBytes) :
    (Password.from_known b).is_known = true ∧
    Password.from_unknown.is_known = false :=
  ⟨rfl, rfl⟩

/-- C9: extraction round-trips with the constructors: for every byte
sequence `b`, `Password::known` on `from_known(b)` yields exactly `b`,
and on `from_unknown()` signals absence (`none`). -/
theorem C9_known_round_trip (b : SecretBytes) :
    (Password.from_known b).known = some b ∧
    Password.from_unknown.known = none :=
  ⟨rfl, rfl⟩
